import Mathlib

/-!
Shallow embedding of the snake ECS game (src/snake.py).

The game wires a single "game" entity carrying all seven components and runs
the three systems (Input, Movement, Collision) in a fixed order once per tick,
so the per-tick pipeline is embedded as a function on a record `GState` that
holds that entity's components together with the Input system's
pending-direction slot and the observable notification emissions
(`Subject.on_next` calls).  Randomness (the `random.randint` draws inside
`CollisionSystem._respawn_food`) is supplied as an explicit list of drawn
cells; exhausting the list is the modelling artefact `PyErr.outOfDraws`,
while `PyErr.emptyRange` models the `ValueError` that `random.randint(0, n)`
raises when `n < 0`.  Python `%` on ints agrees with `Int.emod` (the `%` of
`Int`) whenever the modulus is positive, which is the only case the movement
code can reach, since construction fails for non-positive grids.

A second, generic embedding of the `World` class (entity registry and
per-kind component stores as insertion-ordered association lists, mirroring
Python dicts) is used for the component-lookup claims, and a small
allocation model of `rx.subject.Subject` captures that the dataclass field
defaults `Score.score_changed` and `GameState.game_over_subject` are
evaluated once at class-definition time and shared by every instance built
with defaults.
-/

namespace SnakeECS

/-- The `Direction` enum (src/snake.py lines 53-57). -/
inductive Direction
  | up
  | down
  | left
  | right
deriving DecidableEq

/-- Python exceptions reachable in the embedded code, plus the modelling
artefact `outOfDraws` for an exhausted random-draw list (the real rejection
loop would keep drawing). `keyError` is a dict `[]` lookup miss,
`indexError` is `body[0]` on an empty list, `emptyRange` is the
`ValueError` of `random.randint(0, n)` with `n < 0`. -/
inductive PyErr
  | keyError
  | indexError
  | emptyRange
  | outOfDraws
deriving DecidableEq

/-- The components of the single game entity created by
`SnakeGame.__init__` (src/snake.py lines 180-187), flattened into one
record, together with `InputSystem.pending_direction` (line 152) and the
lists of values pushed on the two notification subjects
(`score_changed.on_next` at line 130, `game_over_subject.on_next` at
line 136). `Food.position` is kept as the pair the collision code compares
it to (line 127). -/
structure GState where
  width : Int
  height : Int
  body : List (Int × Int)
  growthPending : Int
  vel : Direction
  food : Int × Int
  score : Int
  isGameOver : Bool
  pendingDirection : Option Direction
  scoreEmits : List Int
  gameOverEmits : Nat
deriving DecidableEq

/-- The turn-validity test of `InputSystem.update` (src/snake.py lines
162-165): the pending direction `d` is applied iff this big disjunction on
the current direction holds. -/
def allowTurn (d cur : Direction) : Bool :=
  (d == Direction.up && cur != Direction.down) ||
  (d == Direction.down && cur != Direction.up) ||
  (d == Direction.left && cur != Direction.right) ||
  (d == Direction.right && cur != Direction.left)

/-- `InputSystem.update` (src/snake.py lines 157-167): if a pending
direction exists, apply it to the velocity unless `allowTurn` rejects it,
then clear the pending slot in either case. -/
def inputSystem (g : GState) : GState :=
  match g.pendingDirection with
  | none => g
  | some d =>
    if allowTurn d g.vel then
      { g with vel := d, pendingDirection := none }
    else
      { g with pendingDirection := none }

/-- The new-head computation of `MovementSystem.update` (src/snake.py lines
101-110): step one cell in the current direction, wrapping each axis
modulo the grid dimension. -/
def stepHead (g : GState) (head : Int × Int) : Int × Int :=
  match g.vel with
  | Direction.up => (head.1, (head.2 - 1) % g.height)
  | Direction.down => (head.1, (head.2 + 1) % g.height)
  | Direction.left => ((head.1 - 1) % g.width, head.2)
  | Direction.right => ((head.1 + 1) % g.width, head.2)

/-- `MovementSystem.update` (src/snake.py lines 94-116): prepend the new
head; if `growth_pending > 0` decrement it, otherwise pop the tail.
`body[0]` on an empty body would raise `IndexError`. -/
def movementSystem (g : GState) : Except PyErr GState :=
  match g.body with
  | [] => .error .indexError
  | head :: _ =>
    let body1 := stepHead g head :: g.body
    if g.growthPending > 0 then
      .ok { g with body := body1, growthPending := g.growthPending - 1 }
    else
      .ok { g with body := body1.dropLast }

/-- The rejection part of the `while True` loop in
`CollisionSystem._respawn_food` (src/snake.py lines 143-148): take the
first supplied draw that is not a body cell. -/
def rejectLoop (body : List (Int × Int)) : List (Int × Int) → Except PyErr (Int × Int)
  | [] => .error .outOfDraws
  | d :: ds => if d ∈ body then rejectLoop body ds else .ok d

/-- `CollisionSystem._respawn_food` (src/snake.py lines 138-148):
`random.randint(0, width - 1)` / `random.randint(0, height - 1)` raise
`ValueError` when the range is empty (the dimension is `≤ 0`); otherwise
draws are rejected until one misses the body. The emptiness test is
hoisted out of the loop since the dimensions do not change between
iterations. -/
def respawnFood (w h : Int) (body draws : List (Int × Int)) : Except PyErr (Int × Int) :=
  if w - 1 < 0 ∨ h - 1 < 0 then .error .emptyRange
  else rejectLoop body draws

/-- `CollisionSystem.update` (src/snake.py lines 119-136): on the post-move
body, eating (head equals the food cell) increments `growth_pending` and
the score, pushes the new score on the score subject and respawns the
food; then a head appearing again in the rest of the body sets
`is_game_over` and pushes on the game-over subject.  The Python code
mutates score and emits before the respawn draw; the model commits the
whole tick only on success, which agrees on every non-error run. -/
def collisionSystem (draws : List (Int × Int)) (g : GState) : Except PyErr GState :=
  match g.body with
  | [] => .error .indexError
  | head :: rest =>
    let foodStep : Except PyErr GState :=
      if head = g.food then
        match respawnFood g.width g.height g.body draws with
        | .error e => .error e
        | .ok c =>
          .ok { g with growthPending := g.growthPending + 1,
                       score := g.score + 1,
                       scoreEmits := g.scoreEmits ++ [g.score + 1],
                       food := c }
      else .ok g
    match foodStep with
    | .error e => .error e
    | .ok g1 =>
      if head ∈ rest then
        .ok { g1 with isGameOver := true, gameOverEmits := g1.gameOverEmits + 1 }
      else
        .ok g1

/-- `SnakeGame.set_direction` / `InputSystem.set_direction` (src/snake.py
lines 154-155, 198-199): overwrite the single pending slot. -/
def set_direction (d : Direction) (g : GState) : GState :=
  { g with pendingDirection := some d }

/-- `SnakeGame.update` via `World.update` (src/snake.py lines 44-46,
193-196): run Input, Movement, Collision in registration order, once. -/
def advance (draws : List (Int × Int)) (g : GState) : Except PyErr GState :=
  match movementSystem (inputSystem g) with
  | .error e => .error e
  | .ok g1 => collisionSystem draws g1

/-- `SnakeGame.__init__` (src/snake.py lines 171-191): the game entity
starts with the body at `(width // 2, height // 2)` (Python `//` is floor
division, `Int.fdiv`), heading Right, food placeholder `(0, 0)`, score 0
and game-over false, and then `_respawn_food` replaces the placeholder
before the first tick. -/
def createGame (width height : Int) (draws : List (Int × Int)) : Except PyErr GState :=
  let g0 : GState :=
    { width := width
      height := height
      body := [(Int.fdiv width 2, Int.fdiv height 2)]
      growthPending := 0
      vel := Direction.right
      food := (0, 0)
      score := 0
      isGameOver := false
      pendingDirection := none
      scoreEmits := []
      gameOverEmits := 0 }
  match respawnFood width height g0.body draws with
  | .error e => .error e
  | .ok c => .ok { g0 with food := c }

/-- A session run: each tick optionally calls `set_direction` (the last
call before the tick wins, as the slot is single) and then `advance`,
consuming the given random draws if the food respawns that tick. -/
def runTicks : List (Option Direction × List (Int × Int)) → GState → Except PyErr GState
  | [], g => .ok g
  | (d?, draws) :: rest, g =>
    let g0 := match d? with
      | none => g
      | some d => set_direction d g
    match advance draws g0 with
    | .error e => .error e
    | .ok g1 => runTicks rest g1


/-- The 180-degree reversing pairs named by the turn-validity rule:
`allowTurn` rejects exactly the pending direction `reverseDir cur`. -/
def reverseDir : Direction → Direction
  | Direction.up => Direction.down
  | Direction.down => Direction.up
  | Direction.left => Direction.right
  | Direction.right => Direction.left

/-! ### Generic `World` embedding

The `World` class (src/snake.py lines 15-46) keyed by component type; the
closed set of component kinds of this program replaces Python's runtime
`type` keys, and Python dicts become insertion-ordered association lists
with last-write-wins assignment (`dset`) and optional lookup (`dget`).
`rx.subject.Subject` values are modelled by allocation identity (a `Nat`
naming the allocated subject). -/

/-- The component kinds attached by `SnakeGame.__init__` (one per
component dataclass, src/snake.py lines 59-90). -/
inductive CKind
  | positionK
  | velocityK
  | snakeK
  | foodK
  | scoreK
  | gridK
  | gameStateK
deriving DecidableEq

/-- Component values (src/snake.py lines 59-90); the two `Subject` fields
are identified by allocation number. -/
inductive CVal
  | positionV (x y : Int)
  | velocityV (d : Direction)
  | snakeV (body : List (Int × Int)) (growthPending : Int)
  | foodV (x y : Int)
  | scoreV (value : Int) (subject : Nat)
  | gridV (width height : Int)
  | gameStateV (isOver : Bool) (subject : Nat)
deriving DecidableEq

/-- Python `d.get(k)`: the value at `k`, or absent. -/
def dget {κ β : Type} [BEq κ] (l : List (κ × β)) (k : κ) : Option β :=
  (l.find? (fun p => p.1 == k)).map (fun p => p.2)

/-- Python `d[k] = v`: overwrite in place if the key exists, else append
(insertion order preserved). -/
def dset {κ β : Type} [BEq κ] (l : List (κ × β)) (k : κ) (v : β) : List (κ × β) :=
  if (l.find? (fun p => p.1 == k)).isSome then
    l.map (fun p => if p.1 == k then (k, v) else p)
  else l ++ [(k, v)]

/-- The `Entity` dataclass (src/snake.py lines 10-13). -/
structure PyEntity where
  id : Nat
  components : List (CKind × CVal)
deriving DecidableEq

/-- The `World` class state (src/snake.py lines 16-20); the system list is
fixed at construction and is embedded as the `advance` pipeline instead. -/
structure World where
  entities : List (Nat × PyEntity)
  next_entity_id : Nat
  components : List (CKind × List (Nat × CVal))
deriving DecidableEq

/-- `World.__init__` (src/snake.py lines 16-19). -/
def World.emptyW : World := ⟨[], 0, []⟩

/-- `World.create_entity` (src/snake.py lines 22-26). -/
def World.create_entity (w : World) : Nat × World :=
  (w.next_entity_id,
    { w with entities := dset w.entities w.next_entity_id ⟨w.next_entity_id, []⟩,
             next_entity_id := w.next_entity_id + 1 })

/-- `World.add_component` (src/snake.py lines 28-33): `self.entities[id]`
raises `KeyError` for an unknown id; otherwise the component is written
into the entity's map and the per-kind store. -/
def World.add_component (w : World) (entity_id : Nat) (kind : CKind) (c : CVal) :
    Except PyErr World :=
  match dget w.entities entity_id with
  | none => .error .keyError
  | some e =>
    let e1 : PyEntity := { e with components := dset e.components kind c }
    let store := (dget w.components kind).getD []
    .ok { w with entities := dset w.entities entity_id e1,
                 components := dset w.components kind (dset store entity_id c) }

/-- `World.get_component` (src/snake.py lines 35-36):
`self.entities[entity_id]` raises `KeyError` for an unknown id, then
`.components.get(component_type)` yields the value or absent. -/
def World.get_component (w : World) (entity_id : Nat) (kind : CKind) :
    Except PyErr (Option CVal) :=
  match dget w.entities entity_id with
  | none => .error .keyError
  | some e => .ok (dget e.components kind)

/-- `World.get_entities_with_component` (src/snake.py lines 38-39). -/
def World.get_entities_with_component (w : World) (kind : CKind) : List Nat :=
  ((dget w.components kind).getD []).map (fun p => p.1)

/-! ### Notification-subject identity

`Score.score_changed` (line 80) and `GameState.game_over_subject` (line
90) are dataclass field defaults of the form `Subject()`: Python evaluates
such a default once, when the class body is executed at module load, and
every instance constructed without an explicit argument — as in
`SnakeGame.__init__` lines 186-187 — shares that one object.  Subjects
are modelled by their allocation number. -/

/-- Allocation of one `Subject()`: returns the new subject and the next
counter. -/
def subjectAlloc (counter : Nat) : Nat × Nat := (counter, counter + 1)

/-- The subject allocated for the `Score.score_changed` class default at
module load (src/snake.py line 80). -/
def score_changed_default : Nat := (subjectAlloc 0).1

/-- The subject allocated next, for the `GameState.game_over_subject`
class default (src/snake.py line 90). -/
def game_over_subject_default : Nat := (subjectAlloc (subjectAlloc 0).2).1

/-- A session together with the subjects its `Score` and `GameState`
components carry. -/
structure Session where
  state : GState
  scoreSubject : Nat
  gameOverSubject : Nat
deriving DecidableEq

/-- `SnakeGame(width, height)` as seen by subscribers: the components are
`Score()` and `GameState()` built with the class defaults (src/snake.py
lines 186-187), so every session carries the module-level default
subjects. -/
def createSession (w h : Int) (draws : List (Int × Int)) : Except PyErr Session :=
  (createGame w h draws).map
    (fun g => ⟨g, score_changed_default, game_over_subject_default⟩)

/-- rx delivery: a value pushed on a subject reaches exactly the
subscribers registered on that same subject. -/
def reaches (emitSubject subSubject : Nat) : Bool := emitSubject == subSubject

/-- Score subject of a constructed session, if construction succeeded. -/
def sessionScoreSubject (r : Except PyErr Session) : Option Nat :=
  match r with
  | .ok s => some s.scoreSubject
  | .error _ => none

/-- Game-over subject of a constructed session, if construction
succeeded. -/
def sessionGameOverSubject (r : Except PyErr Session) : Option Nat :=
  match r with
  | .ok s => some s.gameOverSubject
  | .error _ => none

/-! ### Concrete states and tick scripts used by counterexamples and
witnesses -/

/-- A world holding exactly the entity `0` with no components yet. -/
def w1 : World := (World.emptyW.create_entity).2

/-- Five ticks on a 2-wide, 3-high grid: two food cells are eaten to grow
the snake to length 3, it turns up and then left, and on the fifth tick
the head re-enters the body, ending the game. -/
def c1ticks5 : List (Option Direction × List (Int × Int)) :=
  [(none, [(1,1)]), (none, [(0,2)]), (some Direction.up, []),
   (some Direction.left, []), (none, [])]

/-- The same session continued for one further tick after game over. -/
def c1ticks6 : List (Option Direction × List (Int × Int)) :=
  c1ticks5 ++ [(none, [])]

/-- A 3-by-3 state heading up with the head at the origin. -/
def gW3 : GState :=
  { width := 3, height := 3, body := [(0, 0)], growthPending := 0,
    vel := Direction.up, food := (2, 2), score := 0, isGameOver := false,
    pendingDirection := none, scoreEmits := [], gameOverEmits := 0 }

/-- The state after one movement step of `gW3` (the head wraps to the top
row). -/
def gW3res : GState :=
  { width := 3, height := 3, body := [(0, 2)], growthPending := 0,
    vel := Direction.up, food := (2, 2), score := 0, isGameOver := false,
    pendingDirection := none, scoreEmits := [], gameOverEmits := 0 }

/-- A fresh 5-by-5 state heading right. -/
def gW5 : GState :=
  { width := 5, height := 5, body := [(2, 2)], growthPending := 0,
    vel := Direction.right, food := (0, 0), score := 0, isGameOver := false,
    pendingDirection := none, scoreEmits := [], gameOverEmits := 0 }

/-- `gW5` after one tick in which the reversed pending direction was
rejected. -/
def gW5res : GState :=
  { width := 5, height := 5, body := [(3, 2)], growthPending := 0,
    vel := Direction.right, food := (0, 0), score := 0, isGameOver := false,
    pendingDirection := none, scoreEmits := [], gameOverEmits := 0 }

/-- The session state produced by `createGame 5 5` with first draw
`(0, 0)`. -/
def gW8 : GState :=
  { width := 5, height := 5, body := [(2, 2)], growthPending := 0,
    vel := Direction.right, food := (0, 0), score := 0, isGameOver := false,
    pendingDirection := none, scoreEmits := [], gameOverEmits := 0 }

/-- The session state produced by `createGame 5 5` with first draw
`(3, 2)`: the food sits directly in the snake's path. -/
def gW4init : GState :=
  { width := 5, height := 5, body := [(2, 2)], growthPending := 0,
    vel := Direction.right, food := (3, 2), score := 0, isGameOver := false,
    pendingDirection := none, scoreEmits := [], gameOverEmits := 0 }

/-- `gW4init` after one tick: the food was eaten, growth is still pending
and the body still has length 1. -/
def gW4 : GState :=
  { width := 5, height := 5, body := [(3, 2)], growthPending := 1,
    vel := Direction.right, food := (0, 0), score := 1, isGameOver := false,
    pendingDirection := none, scoreEmits := [1], gameOverEmits := 0 }

/-- A game-over state whose body still carries the duplicate cell. -/
def gW1 : GState :=
  { width := 5, height := 5, body := [(1, 1), (2, 1), (1, 1)], growthPending := 0,
    vel := Direction.left, food := (4, 4), score := 2, isGameOver := true,
    pendingDirection := none, scoreEmits := [1, 2], gameOverEmits := 1 }

/-- `gW1` after one further tick: still game over. -/
def gW1res : GState :=
  { width := 5, height := 5, body := [(0, 1), (1, 1), (2, 1)], growthPending := 0,
    vel := Direction.left, food := (4, 4), score := 2, isGameOver := true,
    pendingDirection := none, scoreEmits := [1, 2], gameOverEmits := 1 }

/-- `gW1` after one collision pass on its already self-intersecting body:
the subject fires a second time. -/
def gW1colres : GState :=
  { width := 5, height := 5, body := [(1, 1), (2, 1), (1, 1)], growthPending := 0,
    vel := Direction.left, food := (4, 4), score := 2, isGameOver := true,
    pendingDirection := none, scoreEmits := [1, 2], gameOverEmits := 2 }


/-! ### Helper lemmas -/

lemma rejectLoop_ok_not_mem (body : List (Int × Int)) :
    ∀ (draws : List (Int × Int)) (c : Int × Int),
      rejectLoop body draws = .ok c → c ∉ body := by
  intro draws
  induction draws with
  | nil => intro c h; exact absurd h (by simp [rejectLoop])
  | cons d ds ih =>
    intro c h
    unfold rejectLoop at h
    split at h
    · exact ih c h
    · cases h; assumption

lemma respawnFood_ok_not_mem (w h : Int) (body draws : List (Int × Int)) (c : Int × Int)
    (hok : respawnFood w h body draws = .ok c) : c ∉ body := by
  unfold respawnFood at hok
  split at hok
  · cases hok
  · exact rejectLoop_ok_not_mem body draws c hok

lemma inputSystem_body (g : GState) : (inputSystem g).body = g.body := by
  obtain ⟨w, ht, b, gp, v, f, s, igo, pd, se, ge⟩ := g
  cases pd with
  | none => rfl
  | some d => unfold inputSystem; dsimp only; split <;> rfl

lemma inputSystem_pending (g : GState) : (inputSystem g).pendingDirection = none := by
  obtain ⟨w, ht, b, gp, v, f, s, igo, pd, se, ge⟩ := g
  cases pd with
  | none => rfl
  | some d => unfold inputSystem; dsimp only; split <;> rfl

lemma inputSystem_iso (g : GState) : (inputSystem g).isGameOver = g.isGameOver := by
  obtain ⟨w, ht, b, gp, v, f, s, igo, pd, se, ge⟩ := g
  cases pd with
  | none => rfl
  | some d => unfold inputSystem; dsimp only; split <;> rfl

lemma inputSystem_gp (g : GState) : (inputSystem g).growthPending = g.growthPending := by
  obtain ⟨w, ht, b, gp, v, f, s, igo, pd, se, ge⟩ := g
  cases pd with
  | none => rfl
  | some d => unfold inputSystem; dsimp only; split <;> rfl

lemma inputSystem_scoreEmits (g : GState) : (inputSystem g).scoreEmits = g.scoreEmits := by
  obtain ⟨w, ht, b, gp, v, f, s, igo, pd, se, ge⟩ := g
  cases pd with
  | none => rfl
  | some d => unfold inputSystem; dsimp only; split <;> rfl

lemma allowTurn_reverse (v : Direction) : allowTurn (reverseDir v) v = false := by
  cases v <;> rfl

/-- Inversion principle for a successful movement tick. -/
lemma movementSystem_ok_inv (g g' : GState) (hok : movementSystem g = .ok g') :
    ∃ head rest, g.body = head :: rest ∧
      ((g.growthPending > 0 ∧
          g' = { g with body := stepHead g head :: g.body,
                        growthPending := g.growthPending - 1 }) ∨
        (¬ g.growthPending > 0 ∧
          g' = { g with body := (stepHead g head :: g.body).dropLast })) := by
  rcases hb : g.body with _ | ⟨head, rest⟩
  · unfold movementSystem at hok
    rw [hb] at hok
    cases hok
  · unfold movementSystem at hok
    rw [hb] at hok
    dsimp only at hok
    by_cases hgp : g.growthPending > 0
    · rw [if_pos hgp] at hok
      cases hok
      exact ⟨head, rest, rfl, Or.inl ⟨hgp, rfl⟩⟩
    · rw [if_neg hgp] at hok
      cases hok
      exact ⟨head, rest, rfl, Or.inr ⟨hgp, rfl⟩⟩

lemma movementSystem_vel (g g' : GState) (hok : movementSystem g = .ok g') :
    g'.vel = g.vel := by
  obtain ⟨head, rest, hb, h⟩ := movementSystem_ok_inv g g' hok
  rcases h with ⟨_, rfl⟩ | ⟨_, rfl⟩ <;> rfl

lemma movementSystem_iso (g g' : GState) (hok : movementSystem g = .ok g') :
    g'.isGameOver = g.isGameOver := by
  obtain ⟨head, rest, hb, h⟩ := movementSystem_ok_inv g g' hok
  rcases h with ⟨_, rfl⟩ | ⟨_, rfl⟩ <;> rfl

lemma movementSystem_scoreEmits (g g' : GState) (hok : movementSystem g = .ok g') :
    g'.scoreEmits = g.scoreEmits := by
  obtain ⟨head, rest, hb, h⟩ := movementSystem_ok_inv g g' hok
  rcases h with ⟨_, rfl⟩ | ⟨_, rfl⟩ <;> rfl

/-- One movement step conserves body length plus pending growth. -/
lemma movementSystem_measure (g g' : GState) (hok : movementSystem g = .ok g') :
    (g'.body.length : Int) + g'.growthPending =
      (g.body.length : Int) + g.growthPending := by
  obtain ⟨head, rest, hb, h⟩ := movementSystem_ok_inv g g' hok
  rcases h with ⟨hgp, rfl⟩ | ⟨hgp, rfl⟩ <;>
    simp [hb, List.length_dropLast]

/-- Inversion principle for a successful collision tick: the result is
obtained from the input by the food step (either an eat with a successful
respawn, or no change) followed by the self-collision step. -/
lemma collisionSystem_ok_inv (draws : List (Int × Int)) (g g' : GState)
    (hok : collisionSystem draws g = .ok g') :
    ∃ head rest g1, g.body = head :: rest ∧
      ((head = g.food ∧ ∃ c, respawnFood g.width g.height g.body draws = .ok c ∧
          g1 = { g with growthPending := g.growthPending + 1,
                        score := g.score + 1,
                        scoreEmits := g.scoreEmits ++ [g.score + 1],
                        food := c }) ∨
        (head ≠ g.food ∧ g1 = g)) ∧
      ((head ∈ rest ∧
          g' = { g1 with isGameOver := true, gameOverEmits := g1.gameOverEmits + 1 }) ∨
        (head ∉ rest ∧ g' = g1)) := by
  rcases hb : g.body with _ | ⟨head, rest⟩
  · unfold collisionSystem at hok
    rw [hb] at hok
    cases hok
  · unfold collisionSystem at hok
    rw [hb] at hok
    dsimp only at hok
    refine ⟨head, rest, ?_⟩
    by_cases hf : head = g.food
    · rw [if_pos hf] at hok
      cases hr : respawnFood g.width g.height g.body draws with
      | error e => rw [hb] at hr; rw [hr] at hok; cases hok
      | ok c =>
        rw [hb] at hr
        rw [hr] at hok
        dsimp only at hok
        by_cases hm : head ∈ rest
        · rw [if_pos hm] at hok
          cases hok
          exact ⟨_, rfl, Or.inl ⟨hf, c, hr, rfl⟩, Or.inl ⟨hm, rfl⟩⟩
        · rw [if_neg hm] at hok
          cases hok
          exact ⟨_, rfl, Or.inl ⟨hf, c, hr, rfl⟩, Or.inr ⟨hm, rfl⟩⟩
    · rw [if_neg hf] at hok
      dsimp only at hok
      by_cases hm : head ∈ rest
      · rw [if_pos hm] at hok
        cases hok
        exact ⟨_, rfl, Or.inr ⟨hf, rfl⟩, Or.inl ⟨hm, rfl⟩⟩
      · rw [if_neg hm] at hok
        cases hok
        exact ⟨_, rfl, Or.inr ⟨hf, rfl⟩, Or.inr ⟨hm, rfl⟩⟩

lemma collisionSystem_vel (draws : List (Int × Int)) (g g' : GState)
    (hok : collisionSystem draws g = .ok g') : g'.vel = g.vel := by
  obtain ⟨head, rest, g1, hb, hfood, hself⟩ := collisionSystem_ok_inv draws g g' hok
  have h1 : g1.vel = g.vel := by
    rcases hfood with ⟨_, c, _, rfl⟩ | ⟨_, rfl⟩ <;> rfl
  rcases hself with ⟨_, rfl⟩ | ⟨_, rfl⟩ <;> simpa using h1

lemma collisionSystem_body (draws : List (Int × Int)) (g g' : GState)
    (hok : collisionSystem draws g = .ok g') : g'.body = g.body := by
  obtain ⟨head, rest, g1, hb, hfood, hself⟩ := collisionSystem_ok_inv draws g g' hok
  have h1 : g1.body = g.body := by
    rcases hfood with ⟨_, c, _, rfl⟩ | ⟨_, rfl⟩ <;> rfl
  rcases hself with ⟨_, rfl⟩ | ⟨_, rfl⟩ <;> simpa using h1

/-- One collision step conserves pending growth minus emitted-score
count. -/
lemma collisionSystem_measure (draws : List (Int × Int)) (g g' : GState)
    (hok : collisionSystem draws g = .ok g') :
    (g'.growthPending : Int) - g'.scoreEmits.length =
      (g.growthPending : Int) - g.scoreEmits.length := by
  obtain ⟨head, rest, g1, hb, hfood, hself⟩ := collisionSystem_ok_inv draws g g' hok
  have h1 : (g1.growthPending : Int) - g1.scoreEmits.length =
      (g.growthPending : Int) - g.scoreEmits.length := by
    rcases hfood with ⟨_, c, _, rfl⟩ | ⟨_, rfl⟩
    · simp
    · rfl
  rcases hself with ⟨_, rfl⟩ | ⟨_, rfl⟩ <;> simpa using h1

/-- The collision pass sets the flag and fires the subject exactly on the
self-intersection test of the post-move body. -/
lemma collisionSystem_gameOver (draws : List (Int × Int)) (g g' : GState)
    (head : Int × Int) (rest : List (Int × Int)) (hb : g.body = head :: rest)
    (hok : collisionSystem draws g = .ok g') :
    g'.isGameOver = (g.isGameOver || decide (head ∈ rest)) ∧
    g'.gameOverEmits = g.gameOverEmits + (if head ∈ rest then 1 else 0) := by
  obtain ⟨head2, rest2, g1, hb2, hfood, hself⟩ := collisionSystem_ok_inv draws g g' hok
  rw [hb] at hb2
  obtain ⟨hh, hr⟩ : head2 = head ∧ rest2 = rest := by
    constructor <;> (cases hb2; rfl)
  subst hh hr
  have h1 : g1.isGameOver = g.isGameOver ∧ g1.gameOverEmits = g.gameOverEmits := by
    rcases hfood with ⟨_, c, _, rfl⟩ | ⟨_, rfl⟩ <;> exact ⟨rfl, rfl⟩
  rcases hself with ⟨hm, rfl⟩ | ⟨hm, rfl⟩
  · simp [hm, h1.1, h1.2]
  · simp [hm, h1.1, h1.2]

/-- One full tick conserves body length plus pending growth minus the
number of score emissions. -/
lemma advance_measure (draws : List (Int × Int)) (g g' : GState)
    (hok : advance draws g = .ok g') :
    (g'.body.length : Int) + g'.growthPending - g'.scoreEmits.length =
      (g.body.length : Int) + g.growthPending - g.scoreEmits.length := by
  unfold advance at hok
  cases hm : movementSystem (inputSystem g) with
  | error e => rw [hm] at hok; cases hok
  | ok g1 =>
    rw [hm] at hok
    have hmm := movementSystem_measure _ _ hm
    have hms := movementSystem_scoreEmits _ _ hm
    have hcb := collisionSystem_body draws g1 g' hok
    have hcm := collisionSystem_measure draws g1 g' hok
    rw [inputSystem_body, inputSystem_gp] at hmm
    rw [inputSystem_scoreEmits] at hms
    rw [hcb]
    have hsel : (g1.scoreEmits.length : Int) = g.scoreEmits.length := by rw [hms]
    omega

/-- Once set, the game-over flag survives any further tick. -/
lemma advance_iso_mono (draws : List (Int × Int)) (g g' : GState)
    (higo : g.isGameOver = true) (hok : advance draws g = .ok g') :
    g'.isGameOver = true := by
  unfold advance at hok
  cases hm : movementSystem (inputSystem g) with
  | error e => rw [hm] at hok; cases hok
  | ok g1 =>
    rw [hm] at hok
    dsimp only at hok
    have h1 : g1.isGameOver = true := by
      rw [movementSystem_iso _ _ hm, inputSystem_iso, higo]
    obtain ⟨head, rest, g2, hb, _, _⟩ := collisionSystem_ok_inv draws g1 g' hok
    have := (collisionSystem_gameOver draws g1 g' head rest hb hok).1
    rw [this, h1]
    simp

/-- The measure is preserved along any run. -/
lemma runTicks_measure (ticks : List (Option Direction × List (Int × Int))) :
    ∀ (g g' : GState), runTicks ticks g = .ok g' →
      (g'.body.length : Int) + g'.growthPending - g'.scoreEmits.length =
        (g.body.length : Int) + g.growthPending - g.scoreEmits.length := by
  induction ticks with
  | nil => intro g g' hok; cases hok; rfl
  | cons t rest ih =>
    intro g g' hok
    obtain ⟨d?, draws⟩ := t
    unfold runTicks at hok
    dsimp only at hok
    cases d? with
    | none =>
      cases ha : advance draws g with
      | error e => rw [ha] at hok; cases hok
      | ok g1 =>
        rw [ha] at hok
        have h1 := advance_measure draws g g1 ha
        have h2 := ih g1 g' hok
        omega
    | some d =>
      cases ha : advance draws (set_direction d g) with
      | error e => rw [ha] at hok; cases hok
      | ok g1 =>
        rw [ha] at hok
        have h1 := advance_measure draws (set_direction d g) g1 ha
        have h2 := ih g1 g' hok
        simp only [set_direction] at h1
        omega

/-- Fields of a successfully constructed session. -/
lemma createGame_ok_fields (w h : Int) (draws : List (Int × Int)) (g : GState)
    (hok : createGame w h draws = .ok g) :
    g.width = w ∧ g.height = h ∧
    g.body = [(Int.fdiv w 2, Int.fdiv h 2)] ∧ g.vel = Direction.right ∧
    g.score = 0 ∧ g.isGameOver = false ∧ g.growthPending = 0 ∧
    g.pendingDirection = none ∧ g.scoreEmits = [] ∧ g.gameOverEmits = 0 ∧
    g.food ∉ g.body := by
  unfold createGame at hok
  dsimp only at hok
  cases hr : respawnFood w h [(Int.fdiv w 2, Int.fdiv h 2)] draws with
  | error e => rw [hr] at hok; cases hok
  | ok c =>
    rw [hr] at hok
    cases hok
    refine ⟨rfl, rfl, rfl, rfl, rfl, rfl, rfl, rfl, rfl, rfl, ?_⟩
    simpa using respawnFood_ok_not_mem _ _ _ _ _ hr

lemma inputSystem_flag (g : GState) (b : Bool) :
    inputSystem { g with isGameOver := b } =
      { inputSystem g with isGameOver := b } := by
  obtain ⟨w, ht, bd, gp, v, f, s, igo, pd, se, ge⟩ := g
  cases pd with
  | none => rfl
  | some d =>
    unfold inputSystem
    dsimp only
    cases hc : allowTurn d v <;> simp [hc]

lemma movementSystem_flag (g : GState) (b : Bool) :
    movementSystem { g with isGameOver := b } =
      (movementSystem g).map (fun x => { x with isGameOver := b }) := by
  obtain ⟨w, ht, bd, gp, v, f, s, igo, pd, se, ge⟩ := g
  cases bd with
  | nil => rfl
  | cons head tl =>
    unfold movementSystem
    dsimp only
    by_cases hgp : gp > 0 <;> simp [hgp, Except.map, stepHead]

lemma collisionSystem_flag (draws : List (Int × Int)) (g : GState) :
    collisionSystem draws { g with isGameOver := true } =
      (collisionSystem draws { g with isGameOver := false }).map
        (fun x => { x with isGameOver := true }) := by
  obtain ⟨w, ht, bd, gp, v, f, s, igo, pd, se, ge⟩ := g
  cases bd with
  | nil => rfl
  | cons head rest =>
    unfold collisionSystem
    dsimp only
    by_cases hf : head = f
    · simp only [hf, if_pos rfl]
      cases hr : respawnFood w ht (f :: rest) draws with
      | error e => simp [hr, Except.map]
      | ok c =>
        simp only [hr]
        by_cases hm : f ∈ rest <;> simp [hm, Except.map]
    · rw [if_neg hf, if_neg hf]
      by_cases hm : head ∈ rest <;> simp [hm, Except.map]

/-! ### Claim theorems -/

/-- C3: for every heading and every in-range head position on a positive
grid, one Movement System step produces a new head whose coordinates are
again within `[0, width)` and `[0, height)` (toroidal wrap on each axis
independently). -/
theorem c3_wrap (g g' : GState) (x y : Int) (rest : List (Int × Int))
    (hw : 0 < g.width) (hh : 0 < g.height)
    (hbody : g.body = (x, y) :: rest)
    (hx0 : 0 ≤ x) (hxw : x < g.width) (hy0 : 0 ≤ y) (hyh : y < g.height)
    (hok : movementSystem g = .ok g') :
    ∃ p rest', g'.body = p :: rest' ∧
      0 ≤ p.1 ∧ p.1 < g.width ∧ 0 ≤ p.2 ∧ p.2 < g.height := by
  unfold movementSystem at hok
  rw [hbody] at hok
  dsimp only at hok
  have hstep : 0 ≤ (stepHead g (x, y)).1 ∧ (stepHead g (x, y)).1 < g.width ∧
      0 ≤ (stepHead g (x, y)).2 ∧ (stepHead g (x, y)).2 < g.height := by
    unfold stepHead
    cases g.vel <;>
      refine ⟨?_, ?_, ?_, ?_⟩ <;>
      first
        | assumption
        | exact Int.emod_nonneg _ (by omega)
        | exact Int.emod_lt_of_pos _ (by omega)
  split at hok
  · cases hok
    exact ⟨stepHead g (x, y), (x, y) :: rest, rfl,
      hstep.1, hstep.2.1, hstep.2.2.1, hstep.2.2.2⟩
  · cases hok
    refine ⟨stepHead g (x, y), ((x, y) :: rest).dropLast, ?_,
      hstep.1, hstep.2.1, hstep.2.2.1, hstep.2.2.2⟩
    simp [List.dropLast_cons₂]

/-- Witness for C3 at a concrete input: one step up from the origin on a
3-by-3 grid wraps to the top row and stays in range. -/
theorem c3_witness :
    ∃ p rest', gW3res.body = p :: rest' ∧
      0 ≤ p.1 ∧ p.1 < gW3.width ∧ 0 ≤ p.2 ∧ p.2 < gW3.height :=
  c3_wrap gW3 gW3res 0 0 [] (by decide) (by decide) rfl (by decide)
    (by decide) (by decide) (by decide) rfl

/-- C5: a pending direction that is the 180-degree reverse of the current
heading is never applied — after `advance` the velocity is unchanged —
and the pending slot is always clear after the Input System has run,
whether or not the pending direction was applied. -/
theorem c5_no_reverse :
    (∀ (g : GState) (draws : List (Int × Int)) (g' : GState),
        advance draws (set_direction (reverseDir g.vel) g) = .ok g' → g'.vel = g.vel) ∧
    (∀ g : GState, (inputSystem g).pendingDirection = none) := by
  constructor
  · intro g draws g' hok
    unfold advance at hok
    have hin : inputSystem (set_direction (reverseDir g.vel) g) =
        { g with pendingDirection := none } := by
      unfold inputSystem set_direction
      dsimp only
      rw [allowTurn_reverse]
      simp
    rw [hin] at hok
    split at hok
    · cases hok
    · rename_i g1 hmov
      have h1 := movementSystem_vel _ _ hmov
      have h2 := collisionSystem_vel _ _ _ hok
      rw [h2, h1]
  · exact inputSystem_pending

/-- Witness for C5 at a concrete input: a fresh 5-by-5 session heading
right keeps heading right after a pending Left request. -/
theorem c5_witness : gW5res.vel = gW5.vel :=
  c5_no_reverse.1 gW5 [] gW5res rfl

/-- C6: whenever the food-respawn procedure accepts a drawn cell, the
accepted cell is not on the snake body — at the respawn routine itself,
after every food collision, and at session start. -/
theorem c6_food_disjoint :
    (∀ (w h : Int) (body draws : List (Int × Int)) (c : Int × Int),
        respawnFood w h body draws = .ok c → c ∉ body) ∧
    (∀ (draws : List (Int × Int)) (g g' : GState) (head : Int × Int)
        (rest : List (Int × Int)), g.body = head :: rest → head = g.food →
        collisionSystem draws g = .ok g' → g'.food ∉ g'.body) ∧
    (∀ (w h : Int) (draws : List (Int × Int)) (g : GState),
        createGame w h draws = .ok g → g.food ∉ g.body) := by
  refine ⟨respawnFood_ok_not_mem, ?_, ?_⟩
  · intro draws g g' head rest hb hf hok
    obtain ⟨head2, rest2, g1, hb2, hfood, hself⟩ := collisionSystem_ok_inv draws g g' hok
    have hbody' : g'.body = g.body := collisionSystem_body draws g g' hok
    have hhead : head2 = head := by rw [hb] at hb2; exact (List.cons.injEq _ _ _ _ ▸ hb2).1.symm
    rcases hfood with ⟨_, c, hr, hg1⟩ | ⟨hne, _⟩
    · have hfc : g'.food = c := by
        rcases hself with ⟨_, rfl⟩ | ⟨_, rfl⟩ <;> rw [hg1]
      rw [hfc, hbody']
      exact respawnFood_ok_not_mem _ _ _ _ _ hr
    · exact absurd (hhead ▸ hf) hne
  · intro w h draws g hok
    exact (createGame_ok_fields w h draws g hok).2.2.2.2.2.2.2.2.2.2

/-- Witness for C6 at a concrete input: the loop skips the occupied draw
`(1, 1)` and the accepted cell `(2, 2)` misses the body. -/
theorem c6_witness : ((2 : Int), (2 : Int)) ∉ [((1 : Int), (1 : Int))] :=
  c6_food_disjoint.1 5 5 [(1,1)] [(1,1),(2,2)] (2,2) rfl

/-- C7: for every non-positive grid dimension, session construction fails
(the first `random.randint` raises on its empty range) instead of
producing a session, regardless of the random draws. -/
theorem c7_reject (w h : Int) (draws : List (Int × Int)) (hwh : w ≤ 0 ∨ h ≤ 0) :
    createGame w h draws = .error .emptyRange := by
  have hcond : w - 1 < 0 ∨ h - 1 < 0 := by omega
  simp only [createGame, respawnFood, if_pos hcond]

/-- Witness for C7 at a concrete input: width 0 is rejected at
construction. -/
theorem c7_witness : createGame 0 5 [] = .error .emptyRange :=
  c7_reject 0 5 [] (Or.inl (by norm_num))

/-- C8: a successfully constructed session starts with the body at the
single grid-center cell, heading Right, score 0, game-over false, and a
food cell already replaced by a valid respawn, hence off the body. -/
theorem c8_initial (w h : Int) (draws : List (Int × Int)) (g : GState)
    (hok : createGame w h draws = .ok g) :
    g.width = w ∧ g.height = h ∧
    g.body = [(Int.fdiv w 2, Int.fdiv h 2)] ∧ g.vel = Direction.right ∧
    g.score = 0 ∧ g.isGameOver = false ∧ g.growthPending = 0 ∧
    g.pendingDirection = none ∧ g.scoreEmits = [] ∧ g.gameOverEmits = 0 ∧
    g.food ∉ g.body :=
  createGame_ok_fields w h draws g hok

/-- Witness for C8 at a concrete input: `createGame 5 5` with first draw
`(0, 0)`. -/
theorem c8_witness :
    gW8.width = 5 ∧ gW8.height = 5 ∧
    gW8.body = [(Int.fdiv 5 2, Int.fdiv 5 2)] ∧ gW8.vel = Direction.right ∧
    gW8.score = 0 ∧ gW8.isGameOver = false ∧ gW8.growthPending = 0 ∧
    gW8.pendingDirection = none ∧ gW8.scoreEmits = [] ∧ gW8.gameOverEmits = 0 ∧
    gW8.food ∉ gW8.body :=
  c8_initial 5 5 [(0,0)] gW8 rfl

/-- C4 (amended): along any run from a fresh session, body length plus
pending growth equals one plus the number of food-eating ticks (the
emitted-score count); only the Movement System changes the body — the
Collision System and the Input System leave it untouched.  In particular
the claimed `length = 1 + F` holds exactly when no growth is pending. -/
theorem c4_growth :
    (∀ (ticks : List (Option Direction × List (Int × Int))) (w h : Int)
        (draws0 : List (Int × Int)) (g0 g : GState),
        createGame w h draws0 = .ok g0 → runTicks ticks g0 = .ok g →
        (g.body.length : Int) + g.growthPending = 1 + g.scoreEmits.length) ∧
    (∀ (draws : List (Int × Int)) (g g' : GState),
        collisionSystem draws g = .ok g' → g'.body = g.body) ∧
    (∀ g : GState, (inputSystem g).body = g.body) := by
  refine ⟨?_, collisionSystem_body, inputSystem_body⟩
  intro ticks w h draws0 g0 g hcreate hrun
  have hm := runTicks_measure ticks g0 g hrun
  obtain ⟨_, _, hbody, _, _, _, hgp, _, hse, _, _⟩ := createGame_ok_fields w h draws0 g0 hcreate
  rw [hbody, hgp, hse] at hm
  simp at hm
  omega

/-- Witness for C4 at a concrete input: after one eating tick, length 1
plus pending growth 1 equals 1 plus one emission. -/
theorem c4_witness :
    (gW4.body.length : Int) + gW4.growthPending = 1 + gW4.scoreEmits.length :=
  c4_growth.1 [(none, [(0,0)])] 5 5 [(3,2)] gW4init gW4 rfl rfl

/-- C4 counterexample: a fresh 5-by-5 session whose single tick eats the
food ends with body length 1, not `1 + F = 2` — the growth of the final
eating tick is still pending. -/
theorem c4_counterexample :
    ((createGame 5 5 [(3,2)]).bind (runTicks [(none, [(0,0)])])).map
        (fun g => (g.body.length, g.scoreEmits.length, g.gameOverEmits)) =
      .ok (1, 1, 0) ∧ (1 : Nat) ≠ 1 + 1 := by
  constructor
  · rfl
  · omega

/-- C1 (amended): the collision pass sets `isGameOver` and fires the
game-over subject on exactly the ticks whose post-move head appears again
in the body, and once `isGameOver` is true it stays true on every later
tick; there is no idempotency guard, so a later tick whose post-move body
is again self-intersecting fires the subject again. -/
theorem c1_gameover :
    (∀ (draws : List (Int × Int)) (g g' : GState),
        g.isGameOver = true → advance draws g = .ok g' → g'.isGameOver = true) ∧
    (∀ (draws : List (Int × Int)) (g g' : GState) (head : Int × Int)
        (rest : List (Int × Int)), g.body = head :: rest →
        collisionSystem draws g = .ok g' →
        g'.isGameOver = (g.isGameOver || decide (head ∈ rest)) ∧
        g'.gameOverEmits = g.gameOverEmits + (if head ∈ rest then 1 else 0)) := by
  refine ⟨fun draws g g' h1 h2 => advance_iso_mono draws g g' h1 h2, ?_⟩
  intro draws g g' head rest hb hok
  exact collisionSystem_gameOver draws g g' head rest hb hok

/-- Witness for C1 at concrete inputs: a further tick on a game-over state
keeps the flag, and a collision pass on a self-intersecting body fires the
subject once more. -/
theorem c1_witness : gW1res.isGameOver = true ∧
    (gW1colres.isGameOver =
        (gW1.isGameOver || decide (((1 : Int), (1 : Int)) ∈ [((2 : Int), (1 : Int)), (1, 1)])) ∧
      gW1colres.gameOverEmits = gW1.gameOverEmits +
        (if ((1 : Int), (1 : Int)) ∈ [((2 : Int), (1 : Int)), (1, 1)] then 1 else 0)) :=
  ⟨c1_gameover.1 [] gW1 gW1res rfl rfl,
    c1_gameover.2 [] gW1 gW1colres (1, 1) [(2, 1), (1, 1)] rfl rfl⟩

/-- C1 counterexample: a session on a 2-by-3 grid in which the fifth tick
ends the game with one game-over emission and the sixth tick emits again
— the notification does not fire exactly once across the session. -/
theorem c1_counterexample :
    ((createGame 2 3 [(0,1)]).bind (runTicks c1ticks5)).map
        (fun g => (g.isGameOver, g.gameOverEmits)) = .ok (true, 1) ∧
    ((createGame 2 3 [(0,1)]).bind (runTicks c1ticks6)).map
        (fun g => (g.isGameOver, g.gameOverEmits)) = .ok (true, 2) ∧
    (2 : Nat) ≠ 1 := by
  exact ⟨rfl, rfl, by omega⟩

/-- C10: the game-over flag gates nothing — a tick entered with the flag
set runs Input, Movement and Collision and mutates every other field
exactly as the same tick entered with the flag clear, only keeping the
flag true. `advance` merely reports the flag. -/
theorem c10_no_gate (g : GState) (draws : List (Int × Int)) :
    advance draws { g with isGameOver := true } =
      (advance draws { g with isGameOver := false }).map
        (fun x => { x with isGameOver := true }) := by
  unfold advance
  rw [inputSystem_flag g true, inputSystem_flag g false]
  rw [movementSystem_flag (inputSystem g) true, movementSystem_flag (inputSystem g) false]
  cases hm : movementSystem (inputSystem g) with
  | error e => simp [Except.map]
  | ok g1 =>
    simp only [Except.map]
    exact collisionSystem_flag draws g1

/-- C2 (amended): `get_component` on an existing entity id returns the
component value or absent, but on an id that is not in the World it
raises `KeyError`. -/
theorem c2_lookup (w : World) (i : Nat) (k : CKind) :
    (dget w.entities i = none → w.get_component i k = .error .keyError) ∧
    (∀ e, dget w.entities i = some e →
        w.get_component i k = .ok (dget e.components k)) := by
  constructor
  · intro h
    unfold World.get_component
    rw [h]
  · intro e h
    unfold World.get_component
    rw [h]

/-- Witness for C2 at concrete inputs: id 5 is missing and raises, id 0
exists and yields absent for a kind it lacks. -/
theorem c2_witness :
    w1.get_component 5 CKind.foodK = .error .keyError ∧
    w1.get_component 0 CKind.foodK = .ok none := by
  constructor
  · exact (c2_lookup w1 5 CKind.foodK).1 rfl
  · exact (c2_lookup w1 0 CKind.foodK).2 ⟨0, []⟩ rfl

/-- C2 counterexample: looking up a non-existent id raises `KeyError`
rather than returning the absent value. -/
theorem c2_counterexample :
    w1.get_component 5 CKind.snakeK = .error .keyError ∧
    (Except.error PyErr.keyError : Except PyErr (Option CVal)) ≠ .ok none := by
  refine ⟨rfl, ?_⟩
  intro h
  cases h

/-- C9: two separately constructed sessions carry the very same
module-level default subjects (the dataclass defaults are evaluated once),
so an event emitted through one session reaches subscribers registered
through the other — the channels are not per-session. -/
theorem c9_shared_subjects :
    sessionScoreSubject (createSession 4 4 [(0,0)]) = some score_changed_default ∧
    sessionScoreSubject (createSession 6 6 [(0,0)]) = some score_changed_default ∧
    sessionGameOverSubject (createSession 4 4 [(0,0)]) = some game_over_subject_default ∧
    sessionGameOverSubject (createSession 6 6 [(0,0)]) = some game_over_subject_default ∧
    reaches score_changed_default score_changed_default = true ∧
    reaches game_over_subject_default game_over_subject_default = true :=
  ⟨rfl, rfl, rfl, rfl, rfl, rfl⟩

end SnakeECS
